import Mathlib

/-!
Shallow embedding of the backend server (`src/backend/server.py`), a small
HTTP service with a status-check log and a chat endpoint that forwards a
user message to a hosted inference API, applying a static fallback policy
when the outbound call does not succeed.

Modelling conventions:
* `datetime.utcnow()` values are abstract `Nat` timestamps supplied by the
  environment.
* `str(uuid.uuid4())` is modelled as the n-th draw from the process-wide
  UUID source (`uuid4 n`); uniqueness of distinct draws is captured by the
  model being injective in the draw index.  Inside the chat handler the two
  freshly drawn ids are supplied by the environment (`msgId`, `respId`).
* Database inserts and the outbound HTTP POST are effects; the handler is
  embedded as a pure function from an environment (describing how each
  effect would resolve) to a result plus the ordered trace of effects that
  actually happened.  An insert appears in the trace only if it succeeded;
  the outbound call appears as soon as it is attempted.
* A Python exception escaping the handler body is caught by the outer
  `except Exception` and surfaces as `HandlerResult.error 500 detail`.
* The JSON body of the inference response is abstracted by `HFJson`,
  keeping exactly the distinctions `result[0]["generated_text"] if result
  else ...` is sensitive to: a body that fails to parse, an array whose
  elements may or may not carry a generated-text field, and any non-array
  value together with its Python truthiness.
-/

namespace Server

/-- Sub-model `user_info` of a chat request (`UserInfo` in the source). -/
structure UserInfo where
  name : String
  email : String
  phone : String
deriving DecidableEq

/-- Inbound chat request body (`ChatMessage` in the source). -/
structure ChatMessage where
  message : String
  user_info : UserInfo
deriving DecidableEq

/-- Outbound chat response body (`ChatResponse` in the source). -/
structure ChatResponse where
  response : String
  recommendations : List String
deriving DecidableEq

/-- Abstraction of the parsed JSON body of the inference response.
`arr items` is a JSON array, each element recorded as `some t` when it is
an object carrying `"generated_text" : t` and `none` otherwise; `other b`
is any non-array JSON value with Python truthiness `b`; `parseError` is a
body on which `.json()` raises. -/
inductive HFJson where
  | parseError : HFJson
  | arr : List (Option String) → HFJson
  | other : Bool → HFJson
deriving DecidableEq

/-- Outcome of `requests.post` when it returns: an HTTP status code and a
body. -/
structure HFResponse where
  status_code : Nat
  body : HFJson
deriving DecidableEq

/-- Environment of one chat request: how each effect would resolve. -/
structure Env where
  hf_api_key : Option String
  msgId : String
  msgTime : Nat
  msgInsertOk : Bool
  msgInsertErr : String
  postRaises : Bool
  postErr : String
  hfResponse : HFResponse
  respId : String
  respTime : Nat
  respInsertOk : Bool
  respInsertErr : String
deriving DecidableEq

/-- Observable effects of one chat request, in order of occurrence. -/
inductive Event where
  | insertChatMessage : String → UserInfo → String → Nat → Event
  | hfCall : String → Event
  | insertAIResponse : String → String → String → List String → Nat → Event
deriving DecidableEq

/-- Result of the chat handler at the HTTP boundary: a 200 body or an
`HTTPException` status plus textual detail. -/
inductive HandlerResult where
  | ok : ChatResponse → HandlerResult
  | error : Nat → String → HandlerResult
deriving DecidableEq

/-- Python truthiness test `if not hf_api_key` on `os.environ.get(...)`:
missing key or empty string. -/
def keyMissing : Option String → Bool
  | none => true
  | some s => s.isEmpty

/-- The fixed prompt template (the f-string `context`), embedding the
user name and literal message. -/
def context_prompt (name msg : String) : String :=
  "You are a crypto insurance AI advisor helping users reduce their insurance premiums. \n        The user " ++ name ++ " is asking: " ++ msg ++ "\n        \n        Provide helpful advice about:\n        1. Security best practices that can reduce premium costs\n        2. Risk assessment for their crypto holdings\n        3. Insurance coverage recommendations\n        4. Specific actionable steps to lower their risk profile\n        \n        Keep responses concise and actionable. Focus on premium reduction strategies."

/-- The hardcoded model endpoint URL. -/
def hf_url : String :=
  "https://api-inference.huggingface.co/models/microsoft/DialoGPT-large"

/-- Generation parameters of the outbound payload; `temperature = 0.7` is
recorded as tenths to stay in exact arithmetic. -/
structure HFParameters where
  max_new_tokens : Nat
  temperature_tenths : Nat
  return_full_text : Bool
deriving DecidableEq

/-- The payload constants sent with every outbound call. -/
def payload_parameters : HFParameters :=
  { max_new_tokens := 200, temperature_tenths := 7, return_full_text := false }

/-- Failure-path fallback text when the outbound call returns a non-200
status: echoes the user name and the literal message. -/
def fallbackText (name msg : String) : String :=
  "Hello " ++ name ++ "! I\x27m here to help you reduce your crypto insurance premiums. Based on your question about \x27" ++ msg ++ "\x27, I recommend focusing on improving your security setup. Would you like specific advice on hardware wallets, 2FA setup, or DeFi risk management?"

/-- Failure-path fixed 3-item recommendation list with static percentages. -/
def fallbackRecommendations : List String :=
  ["Use a hardware wallet (40% premium reduction)",
   "Enable 2FA on all accounts (15% reduction)",
   "Regular security audits (10% reduction)"]

/-- Success-path greeting used when the parsed body is falsy (for example
an empty array). -/
def greetingText (name : String) : String :=
  "Hello " ++ name ++ "! I\x27m here to help you lower your premium costs. What specific crypto security concerns do you have?"

/-- Success-path fixed 4-item recommendation list. -/
def successRecommendations : List String :=
  ["Hardware wallet usage can reduce premiums by up to 40%",
   "Multi-factor authentication saves 15% on premiums",
   "Cold storage practices offer additional discounts",
   "Regular portfolio rebalancing towards stablecoins reduces risk"]

/-- Evaluation of `result[0]["generated_text"] if result else <greeting>`
on the parsed body: a falsy body yields the greeting, a non-empty array
whose head carries a generated-text field yields that text, and every
other case raises (surfacing as the error text). -/
def extract_generated_text (name : String) : HFJson → Except String String
  | HFJson.parseError => Except.error ("response body is not valid JSON")
  | HFJson.arr [] => Except.ok (greetingText name)
  | HFJson.arr (some t :: _) => Except.ok t
  | HFJson.arr (none :: _) => Except.error ("KeyError: generated_text")
  | HFJson.other true => Except.error ("TypeError: value is not subscriptable as expected")
  | HFJson.other false => Except.ok (greetingText name)

/-- The status branch of the handler: a non-200 status yields the static
fallback text and 3-item list; a 200 status extracts the generated text
(possibly raising) and attaches the 4-item success list. -/
def computeResponse (name msg : String) (resp : HFResponse) :
    Except String (String × List String) :=
  if resp.status_code ≠ 200 then
    Except.ok (fallbackText name msg, fallbackRecommendations)
  else
    (extract_generated_text name resp.body).map
      (fun t => (t, successRecommendations))

/-- The chat handler `chat_with_ai`: check the credential, persist the
inbound message, issue the outbound call, compute the response (static
fallback on non-200 status), persist the outbound record, return the
response; any exception surfaces as a 500 with textual detail. -/
def chat_with_ai (env : Env) (chat_data : ChatMessage) :
    HandlerResult × List Event :=
  if keyMissing env.hf_api_key then
    (HandlerResult.error 500
      "Error processing chat: 500: Hugging Face API key not configured", [])
  else if env.msgInsertOk then
    if env.postRaises then
      (HandlerResult.error 500 ("Error processing chat: " ++ env.postErr),
       [Event.insertChatMessage env.msgId chat_data.user_info
          chat_data.message env.msgTime,
        Event.hfCall (context_prompt chat_data.user_info.name chat_data.message)])
    else
      match computeResponse chat_data.user_info.name chat_data.message
          env.hfResponse with
      | Except.error e =>
          (HandlerResult.error 500 ("Error processing chat: " ++ e),
           [Event.insertChatMessage env.msgId chat_data.user_info
              chat_data.message env.msgTime,
            Event.hfCall (context_prompt chat_data.user_info.name chat_data.message)])
      | Except.ok (ai_response, recommendations) =>
          if env.respInsertOk then
            (HandlerResult.ok
              { response := ai_response, recommendations := recommendations },
             [Event.insertChatMessage env.msgId chat_data.user_info
                chat_data.message env.msgTime,
              Event.hfCall (context_prompt chat_data.user_info.name chat_data.message),
              Event.insertAIResponse env.respId env.msgId ai_response
                recommendations env.respTime])
          else
            (HandlerResult.error 500
              ("Error processing chat: " ++ env.respInsertErr),
             [Event.insertChatMessage env.msgId chat_data.user_info
                chat_data.message env.msgTime,
              Event.hfCall (context_prompt chat_data.user_info.name chat_data.message)])
  else
    (HandlerResult.error 500 ("Error processing chat: " ++ env.msgInsertErr),
     [])

/-- Persisted status-check record (`StatusCheck` in the source). -/
structure StatusCheck where
  id : String
  client_name : String
  timestamp : Nat
deriving DecidableEq

/-- Status-create request body (`StatusCheckCreate` in the source). -/
structure StatusCheckCreate where
  client_name : String
deriving DecidableEq

/-- Model of `str(uuid.uuid4())`: the n-th draw from the process-wide UUID
source.  Uniqueness of uuid4 draws is modelled by injectivity in the draw
index. -/
def uuid4 (n : Nat) : String :=
  String.mk (List.replicate n 'u')

/-- The status-create handler `create_status_check`: copies `client_name`
from the input and fills the id and timestamp defaults. -/
def create_status_check (n : Nat) (input : StatusCheckCreate) (now : Nat) :
    StatusCheck :=
  { id := uuid4 n, client_name := input.client_name, timestamp := now }

/-- Insert into the `status_checks` collection (append-only). -/
def insert_status (coll : List StatusCheck) (s : StatusCheck) :
    List StatusCheck :=
  coll ++ [s]

/-- The status-list handler `get_status_checks`:
`db.status_checks.find().to_list(1000)` returns the stored records, capped
at 1000, with no filtering. -/
def get_status_checks (coll : List StatusCheck) : List StatusCheck :=
  coll.take 1000

/-- A sequence of status-create calls starting at UUID draw `n`, each
appending its record to the collection. -/
def run_status_creates : Nat → List (StatusCheckCreate × Nat) →
    List StatusCheck → List StatusCheck
  | _, [], coll => coll
  | n, (inp, t) :: rest, coll =>
      run_status_creates (n + 1) rest
        (insert_status coll (create_status_check n inp t))

/-- Occurrence of `sub` as a contiguous substring of `s`. -/
def strContains (s sub : String) : Prop :=
  ∃ a b : List Char, s.data = a ++ sub.data ++ b

/-- Fixture: a concrete user. -/
def aliceInfo : UserInfo :=
  { name := "Alice", email := "alice@example.com", phone := "555-0100" }

/-- Fixture: a concrete chat request. -/
def cd0 : ChatMessage :=
  { message := "How can I lower my premium?", user_info := aliceInfo }

/-- Fixture: an environment where every effect succeeds and the inference
call returns a well-formed body. -/
def envBase : Env :=
  { hf_api_key := some ("hf_key"), msgId := "msg-1", msgTime := 10,
    msgInsertOk := true, msgInsertErr := "message insert failed",
    postRaises := false, postErr := "connection error",
    hfResponse := { status_code := 200,
                    body := HFJson.arr [some ("Generated advice.")] },
    respId := "resp-1", respTime := 11,
    respInsertOk := true, respInsertErr := "response insert failed" }

/-- Fixture: the credential is absent. -/
def envNoKey : Env := { envBase with hf_api_key := none }

/-- Fixture: the inference call returns a non-success status. -/
def envStatus503 : Env :=
  { envBase with hfResponse := { status_code := 503, body := HFJson.parseError } }

/-- Fixture: success status but a body that fails to parse. -/
def envParseErr : Env :=
  { envBase with hfResponse := { status_code := 200, body := HFJson.parseError } }

/-- Fixture: success status with an empty JSON array body. -/
def envEmptyArr : Env :=
  { envBase with hfResponse := { status_code := 200, body := HFJson.arr [] } }

/-- Fixture: success status with a falsy non-array body (JSON null, an
empty object, an empty string, 0 or false). -/
def envOtherFalsy : Env :=
  { envBase with
    hfResponse := { status_code := 200, body := HFJson.other false } }

/-- Fixture: the response-record insert fails. -/
def envRespFail : Env := { envBase with respInsertOk := false }

/-- Fixture: two status-create requests. -/
def twoCreates : List (StatusCheckCreate × Nat) :=
  [({ client_name := "client-a" }, 1), ({ client_name := "client-b" }, 2)]

/- Helper lemmas (shared, not tied to any one claim). -/

/-- The two fallback texts differ for every name and message: their
lengths cannot agree, the greeting tail being shorter than the two fixed
failure-path segments combined. -/
theorem greetingText_ne_fallbackText (name msg : String) :
    greetingText name ≠ fallbackText name msg := by
  intro h
  have hlen := congrArg String.length h
  rw [greetingText, fallbackText] at hlen
  simp only [String.length_append] at hlen
  have hA : ("! I\x27m here to help you lower your premium costs. What specific crypto security concerns do you have?").length = 100 := rfl
  have hB : ("! I\x27m here to help you reduce your crypto insurance premiums. Based on your question about \x27").length = 92 := rfl
  have hC : ("\x27, I recommend focusing on improving your security setup. Would you like specific advice on hardware wallets, 2FA setup, or DeFi risk management?").length = 145 := rfl
  rw [hA, hB, hC] at hlen
  omega

/-- The failure-path fallback text contains the user name verbatim. -/
theorem fallbackText_contains_name (name msg : String) :
    strContains (fallbackText name msg) name := by
  refine ⟨("Hello ").data,
    ("! I\x27m here to help you reduce your crypto insurance premiums. Based on your question about \x27" ++ msg ++ "\x27, I recommend focusing on improving your security setup. Would you like specific advice on hardware wallets, 2FA setup, or DeFi risk management?").data, ?_⟩
  simp [fallbackText, String.data_append, List.append_assoc]

/-- The failure-path fallback text contains the literal message verbatim. -/
theorem fallbackText_contains_message (name msg : String) :
    strContains (fallbackText name msg) msg := by
  refine ⟨("Hello " ++ name ++ "! I\x27m here to help you reduce your crypto insurance premiums. Based on your question about \x27").data,
    ("\x27, I recommend focusing on improving your security setup. Would you like specific advice on hardware wallets, 2FA setup, or DeFi risk management?").data, ?_⟩
  simp [fallbackText, String.data_append, List.append_assoc]

/-- A run of status-creates grows the collection by exactly one record per
call. -/
theorem run_status_creates_length (l : List (StatusCheckCreate × Nat)) :
    ∀ (n : Nat) (coll : List StatusCheck),
      (run_status_creates n l coll).length = coll.length + l.length := by
  induction l with
  | nil => intro n coll; simp [run_status_creates]
  | cons hd tl ih =>
      intro n coll
      obtain ⟨inp, t⟩ := hd
      rw [run_status_creates, ih, insert_status]
      simp
      omega

/-- Inversion: a 200 chat response pins down every effect of the run: both
inserts succeeded, the call did not raise, the body branch produced the
returned pair, and the trace is inbound insert, then the call, then the
outbound insert referencing the inbound id. -/
theorem chat_ok_characterization (env : Env) (cd : ChatMessage)
    (r : ChatResponse) (hr : (chat_with_ai env cd).1 = HandlerResult.ok r) :
    keyMissing env.hf_api_key = false ∧ env.msgInsertOk = true ∧
    env.postRaises = false ∧ env.respInsertOk = true ∧
    computeResponse cd.user_info.name cd.message env.hfResponse =
      Except.ok (r.response, r.recommendations) ∧
    (chat_with_ai env cd).2 =
      [Event.insertChatMessage env.msgId cd.user_info cd.message env.msgTime,
       Event.hfCall (context_prompt cd.user_info.name cd.message),
       Event.insertAIResponse env.respId env.msgId r.response
         r.recommendations env.respTime] := by
  cases hk : keyMissing env.hf_api_key with
  | true => simp [chat_with_ai, hk] at hr
  | false =>
    cases hm : env.msgInsertOk with
    | false => simp [chat_with_ai, hk, hm] at hr
    | true =>
      cases hp : env.postRaises with
      | true => simp [chat_with_ai, hk, hm, hp] at hr
      | false =>
        rcases hcr : computeResponse cd.user_info.name cd.message
            env.hfResponse with e | p
        · simp [chat_with_ai, hk, hm, hp, hcr] at hr
        · obtain ⟨ai, recs⟩ := p
          cases hri : env.respInsertOk with
          | false => simp [chat_with_ai, hk, hm, hp, hcr, hri] at hr
          | true =>
            simp [chat_with_ai, hk, hm, hp, hcr, hri] at hr
            subst hr
            exact ⟨rfl, rfl, rfl, rfl, by simp [hcr],
              by simp [chat_with_ai, hk, hm, hp, hcr, hri]⟩

/-- Claim C1 (counterexample): two success-status bodies that are not of
the expected shape on which the handler does not apply the fallback
policy — an unparseable body surfaces a 500 error, and a falsy non-array
body returns the 200 greeting with the 4-item success list, neither being
the claimed 3-item echo fallback. -/
theorem chat_malformed_body_not_fallback :
    (chat_with_ai envParseErr cd0).1 =
      HandlerResult.error 500
        ("Error processing chat: response body is not valid JSON") ∧
    (chat_with_ai envParseErr cd0).1 ≠
      HandlerResult.ok
        { response := fallbackText ("Alice") ("How can I lower my premium?"),
          recommendations := fallbackRecommendations } ∧
    (chat_with_ai envOtherFalsy cd0).1 =
      HandlerResult.ok
        { response := greetingText ("Alice"),
          recommendations := successRecommendations } ∧
    (chat_with_ai envOtherFalsy cd0).1 ≠
      HandlerResult.ok
        { response := fallbackText ("Alice") ("How can I lower my premium?"),
          recommendations := fallbackRecommendations } := by
  refine ⟨rfl, by decide, rfl, by decide⟩

/-- Claim C1 (amended): the fallback policy (200 response echoing the user
name and literal message, with the fixed 3-item list) applies exactly when
the outbound call returns a non-success status.  On a success status the
fallback is never applied — every 200 response then carries the 4-item
success list — and a body not of the expected shape is handled by the
code's truthiness-and-first-element check: a falsy body (empty array or
falsy non-array value) yields the 200 greeting; a body whose first element
carries a generated-text field yields that text; any other body (not valid
JSON, a truthy non-array value, or a first element lacking the field)
surfaces a 500 error rather than the fallback. -/
theorem chat_fallback_only_on_nonsuccess_status (env : Env)
    (cd : ChatMessage) (hk : keyMissing env.hf_api_key = false)
    (hm : env.msgInsertOk = true) (hp : env.postRaises = false)
    (hri : env.respInsertOk = true) :
    (env.hfResponse.status_code ≠ 200 →
      (chat_with_ai env cd).1 = HandlerResult.ok
        { response := fallbackText cd.user_info.name cd.message,
          recommendations := fallbackRecommendations }) ∧
    (env.hfResponse.status_code = 200 →
      (∀ r : ChatResponse, (chat_with_ai env cd).1 = HandlerResult.ok r →
        r.recommendations = successRecommendations ∧
        r.recommendations ≠ fallbackRecommendations) ∧
      (env.hfResponse.body = HFJson.parseError →
        (chat_with_ai env cd).1 = HandlerResult.error 500
          ("Error processing chat: response body is not valid JSON")) ∧
      (∀ rest : List (Option String),
        env.hfResponse.body = HFJson.arr (Option.none :: rest) →
        (chat_with_ai env cd).1 = HandlerResult.error 500
          ("Error processing chat: KeyError: generated_text")) ∧
      (env.hfResponse.body = HFJson.other true →
        (chat_with_ai env cd).1 = HandlerResult.error 500
          ("Error processing chat: TypeError: value is not subscriptable as expected")) ∧
      (env.hfResponse.body = HFJson.arr [] ∨
          env.hfResponse.body = HFJson.other false →
        (chat_with_ai env cd).1 = HandlerResult.ok
          { response := greetingText cd.user_info.name,
            recommendations := successRecommendations }) ∧
      (∀ (t : String) (rest : List (Option String)),
        env.hfResponse.body = HFJson.arr (Option.some t :: rest) →
        (chat_with_ai env cd).1 = HandlerResult.ok
          { response := t, recommendations := successRecommendations })) := by
  constructor
  · intro hs
    simp [chat_with_ai, hk, hm, hp, computeResponse, hs, hri]
  · intro hs
    refine ⟨?_, ?_, ?_, ?_, ?_, ?_⟩
    · intro r hr
      obtain ⟨-, -, -, -, hcr, -⟩ := chat_ok_characterization env cd r hr
      rw [computeResponse] at hcr
      simp only [hs, ne_eq, not_true_eq_false, if_false] at hcr
      rcases hex : extract_generated_text cd.user_info.name
          env.hfResponse.body with e | t <;> rw [hex] at hcr
      · simp [Except.map] at hcr
      · simp only [Except.map, Except.ok.injEq, Prod.mk.injEq] at hcr
        obtain ⟨-, h2⟩ := hcr
        exact ⟨h2.symm, by rw [← h2]; decide⟩
    · intro hb
      simp [chat_with_ai, hk, hm, hp, computeResponse, hs, hb,
        extract_generated_text, Except.map]
    · intro rest hb
      simp [chat_with_ai, hk, hm, hp, computeResponse, hs, hb,
        extract_generated_text, Except.map]
    · intro hb
      simp [chat_with_ai, hk, hm, hp, computeResponse, hs, hb,
        extract_generated_text, Except.map]
    · intro hb
      rcases hb with hb | hb <;>
        simp [chat_with_ai, hk, hm, hp, computeResponse, hs, hb,
          extract_generated_text, Except.map, hri]
    · intro t rest hb
      simp [chat_with_ai, hk, hm, hp, computeResponse, hs, hb,
        extract_generated_text, Except.map, hri]

/-- Witness for the amended C1 theorem at concrete environments: a 503
status yields the fallback 200; a 200 status with an unparseable body
yields a 500; a 200 status with a falsy non-array body yields the 200
greeting with the success list. -/
theorem chat_fallback_only_on_nonsuccess_status_witness :
    (chat_with_ai envStatus503 cd0).1 = HandlerResult.ok
      { response := fallbackText ("Alice") ("How can I lower my premium?"),
        recommendations := fallbackRecommendations } ∧
    (chat_with_ai envParseErr cd0).1 = HandlerResult.error 500
      ("Error processing chat: response body is not valid JSON") ∧
    (chat_with_ai envOtherFalsy cd0).1 = HandlerResult.ok
      { response := greetingText ("Alice"),
        recommendations := successRecommendations } :=
  ⟨(chat_fallback_only_on_nonsuccess_status envStatus503 cd0 rfl rfl rfl
      rfl).1 (by decide),
   ((chat_fallback_only_on_nonsuccess_status envParseErr cd0 rfl rfl rfl
      rfl).2 rfl).2.1 rfl,
   ((chat_fallback_only_on_nonsuccess_status envOtherFalsy cd0 rfl rfl rfl
      rfl).2 rfl).2.2.2.2.1 (Or.inr rfl)⟩

/-- Claim C2: a chat request that returns 200 performed exactly one
chat-message insert and exactly one AI-response insert, in that order,
with the response record's `user_id` equal to the message record's id;
and once the message insert succeeds its record stays in the trace even
when a later step fails (no cleanup of partial state). -/
theorem chat_one_message_one_response_in_order (env : Env)
    (cd : ChatMessage) :
    (∀ r : ChatResponse, (chat_with_ai env cd).1 = HandlerResult.ok r →
      (chat_with_ai env cd).2 =
        [Event.insertChatMessage env.msgId cd.user_info cd.message
           env.msgTime,
         Event.hfCall (context_prompt cd.user_info.name cd.message),
         Event.insertAIResponse env.respId env.msgId r.response
           r.recommendations env.respTime]) ∧
    (keyMissing env.hf_api_key = false → env.msgInsertOk = true →
      Event.insertChatMessage env.msgId cd.user_info cd.message env.msgTime
        ∈ (chat_with_ai env cd).2) := by
  constructor
  · intro r hr
    exact (chat_ok_characterization env cd r hr).2.2.2.2.2
  · intro hk hm
    cases hp : env.postRaises with
    | true => simp [chat_with_ai, hk, hm, hp]
    | false =>
      rcases hcr : computeResponse cd.user_info.name cd.message
          env.hfResponse with e | p
      · simp [chat_with_ai, hk, hm, hp, hcr]
      · obtain ⟨ai, recs⟩ := p
        cases hri : env.respInsertOk with
        | false => simp [chat_with_ai, hk, hm, hp, hcr, hri]
        | true => simp [chat_with_ai, hk, hm, hp, hcr, hri]

/-- Witness for C2 at a concrete successful run, and at a run whose
response insert fails but whose message record is still in the trace. -/
theorem chat_one_message_one_response_in_order_witness :
    (chat_with_ai envBase cd0).2 =
      [Event.insertChatMessage ("msg-1") aliceInfo
         ("How can I lower my premium?") 10,
       Event.hfCall (context_prompt ("Alice") ("How can I lower my premium?")),
       Event.insertAIResponse ("resp-1") ("msg-1") ("Generated advice.")
         successRecommendations 11] ∧
    Event.insertChatMessage ("msg-1") aliceInfo
        ("How can I lower my premium?") 10 ∈ (chat_with_ai envRespFail cd0).2 :=
  ⟨(chat_one_message_one_response_in_order envBase cd0).1
      { response := "Generated advice.",
        recommendations := successRecommendations } rfl,
   (chat_one_message_one_response_in_order envRespFail cd0).2 rfl rfl⟩

/-- Claim C3: when the outbound-API credential is missing, the chat
request fails with a 500 carrying a textual detail, with an empty effect
trace: no outbound call was attempted and no record was persisted. -/
theorem chat_missing_key_errors_before_effects (env : Env)
    (cd : ChatMessage) (h : keyMissing env.hf_api_key = true) :
    (chat_with_ai env cd).1 = HandlerResult.error 500
      ("Error processing chat: 500: Hugging Face API key not configured") ∧
    (chat_with_ai env cd).2 = [] := by
  simp [chat_with_ai, h]

/-- Witness for C3 with the credential absent. -/
theorem chat_missing_key_errors_before_effects_witness :
    (chat_with_ai envNoKey cd0).1 = HandlerResult.error 500
      ("Error processing chat: 500: Hugging Face API key not configured") ∧
    (chat_with_ai envNoKey cd0).2 = [] :=
  chat_missing_key_errors_before_effects envNoKey cd0 rfl

/-- Claim C4: a success status with an empty-array body yields the fixed
greeting text — distinct from the failure-path fallback text — while the
recommendations are still the 4-item success list. -/
theorem chat_empty_array_greeting_with_success_recs (env : Env)
    (cd : ChatMessage) (hk : keyMissing env.hf_api_key = false)
    (hm : env.msgInsertOk = true) (hp : env.postRaises = false)
    (hs : env.hfResponse.status_code = 200)
    (hb : env.hfResponse.body = HFJson.arr [])
    (hri : env.respInsertOk = true) :
    (chat_with_ai env cd).1 = HandlerResult.ok
      { response := greetingText cd.user_info.name,
        recommendations := successRecommendations } ∧
    greetingText cd.user_info.name ≠
      fallbackText cd.user_info.name cd.message ∧
    successRecommendations.length = 4 := by
  refine ⟨?_, greetingText_ne_fallbackText _ _, rfl⟩
  simp [chat_with_ai, hk, hm, hp, computeResponse, hs, hb,
    extract_generated_text, Except.map, hri]

/-- Witness for C4 at a concrete empty-array environment. -/
theorem chat_empty_array_greeting_with_success_recs_witness :
    (chat_with_ai envEmptyArr cd0).1 = HandlerResult.ok
      { response := greetingText ("Alice"),
        recommendations := successRecommendations } ∧
    greetingText ("Alice") ≠
      fallbackText ("Alice") ("How can I lower my premium?") ∧
    successRecommendations.length = 4 :=
  chat_empty_array_greeting_with_success_recs envEmptyArr cd0 rfl rfl rfl
    rfl rfl rfl

/-- Claim C5: a success status with a non-empty well-formed array yields
the first element's generated text and the 4-item success list. -/
theorem chat_success_uses_first_generated_text (env : Env)
    (cd : ChatMessage) (t : String) (rest : List (Option String))
    (hk : keyMissing env.hf_api_key = false) (hm : env.msgInsertOk = true)
    (hp : env.postRaises = false) (hs : env.hfResponse.status_code = 200)
    (hb : env.hfResponse.body = HFJson.arr (some t :: rest))
    (hri : env.respInsertOk = true) :
    (chat_with_ai env cd).1 = HandlerResult.ok
      { response := t, recommendations := successRecommendations } ∧
    successRecommendations.length = 4 := by
  refine ⟨?_, rfl⟩
  simp [chat_with_ai, hk, hm, hp, computeResponse, hs, hb,
    extract_generated_text, Except.map, hri]

/-- Witness for C5 at a concrete well-formed success environment. -/
theorem chat_success_uses_first_generated_text_witness :
    (chat_with_ai envBase cd0).1 = HandlerResult.ok
      { response := "Generated advice.",
        recommendations := successRecommendations } ∧
    successRecommendations.length = 4 :=
  chat_success_uses_first_generated_text envBase cd0 ("Generated advice.")
    [] rfl rfl rfl rfl rfl rfl

/-- Claim C6: a non-success status yields exactly the 3-item fallback list
with its static percentages, and a response text containing the literal
user name and the literal message as substrings. -/
theorem chat_nonsuccess_fallback_list_and_echo (env : Env)
    (cd : ChatMessage) (hk : keyMissing env.hf_api_key = false)
    (hm : env.msgInsertOk = true) (hp : env.postRaises = false)
    (hs : env.hfResponse.status_code ≠ 200)
    (hri : env.respInsertOk = true) :
    (chat_with_ai env cd).1 = HandlerResult.ok
      { response := fallbackText cd.user_info.name cd.message,
        recommendations := fallbackRecommendations } ∧
    fallbackRecommendations =
      ["Use a hardware wallet (40% premium reduction)",
       "Enable 2FA on all accounts (15% reduction)",
       "Regular security audits (10% reduction)"] ∧
    strContains (fallbackText cd.user_info.name cd.message)
      cd.user_info.name ∧
    strContains (fallbackText cd.user_info.name cd.message) cd.message := by
  refine ⟨?_, rfl, fallbackText_contains_name _ _,
    fallbackText_contains_message _ _⟩
  simp [chat_with_ai, hk, hm, hp, computeResponse, hs, hri]

/-- Witness for C6 at a concrete 503 environment. -/
theorem chat_nonsuccess_fallback_list_and_echo_witness :
    (chat_with_ai envStatus503 cd0).1 = HandlerResult.ok
      { response := fallbackText ("Alice") ("How can I lower my premium?"),
        recommendations := fallbackRecommendations } ∧
    fallbackRecommendations =
      ["Use a hardware wallet (40% premium reduction)",
       "Enable 2FA on all accounts (15% reduction)",
       "Regular security audits (10% reduction)"] ∧
    strContains (fallbackText ("Alice") ("How can I lower my premium?"))
      ("Alice") ∧
    strContains (fallbackText ("Alice") ("How can I lower my premium?"))
      ("How can I lower my premium?") :=
  chat_nonsuccess_fallback_list_and_echo envStatus503 cd0 rfl rfl rfl
    (by decide) rfl

/-- Claim C7: the effect trace of any chat request is one of three
prefixes — empty, inbound insert then outbound call, or inbound insert
then outbound call then outbound insert — so the inbound write always
precedes the call, which always precedes the outbound write. -/
theorem chat_event_order (env : Env) (cd : ChatMessage) :
    (chat_with_ai env cd).2 = [] ∨
    (chat_with_ai env cd).2 =
      [Event.insertChatMessage env.msgId cd.user_info cd.message env.msgTime,
       Event.hfCall (context_prompt cd.user_info.name cd.message)] ∨
    ∃ ai recs,
      (chat_with_ai env cd).2 =
        [Event.insertChatMessage env.msgId cd.user_info cd.message
           env.msgTime,
         Event.hfCall (context_prompt cd.user_info.name cd.message),
         Event.insertAIResponse env.respId env.msgId ai recs env.respTime] := by
  cases hk : keyMissing env.hf_api_key with
  | true => left; simp [chat_with_ai, hk]
  | false =>
    cases hm : env.msgInsertOk with
    | false => left; simp [chat_with_ai, hk, hm]
    | true =>
      cases hp : env.postRaises with
      | true => right; left; simp [chat_with_ai, hk, hm, hp]
      | false =>
        rcases hcr : computeResponse cd.user_info.name cd.message
            env.hfResponse with e | p
        · right; left; simp [chat_with_ai, hk, hm, hp, hcr]
        · obtain ⟨ai, recs⟩ := p
          cases hri : env.respInsertOk with
          | false => right; left; simp [chat_with_ai, hk, hm, hp, hcr, hri]
          | true =>
            right; right
            exact ⟨ai, recs, by simp [chat_with_ai, hk, hm, hp, hcr, hri]⟩

/-- Claim C8: the status-create handler echoes the input's client name and
assigns ids that differ across distinct UUID draws. -/
theorem create_status_check_echoes_name_and_fresh_id (n₁ n₂ : Nat)
    (i₁ i₂ : StatusCheckCreate) (t₁ t₂ : Nat) (h : n₁ ≠ n₂) :
    (create_status_check n₁ i₁ t₁).client_name = i₁.client_name ∧
    (create_status_check n₁ i₁ t₁).id ≠ (create_status_check n₂ i₂ t₂).id := by
  refine ⟨rfl, ?_⟩
  intro he
  apply h
  have hlen := congrArg (fun s : String => s.data.length) he
  simpa [create_status_check, uuid4] using hlen

/-- Witness for C8 at two concrete calls. -/
theorem create_status_check_echoes_name_and_fresh_id_witness :
    (create_status_check 0 { client_name := "client-a" } 5).client_name =
      "client-a" ∧
    (create_status_check 0 { client_name := "client-a" } 5).id ≠
      (create_status_check 1 { client_name := "client-b" } 6).id :=
  create_status_check_echoes_name_and_fresh_id 0 1
    { client_name := "client-a" } { client_name := "client-b" } 5 6
    (by decide)

/-- Claim C9: the status-list handler returns at most 1000 records, after
N creations (N within the cap) it returns at least N records, and under
the cap it returns the stored collection unchanged (no filtering). -/
theorem get_status_checks_cap_and_no_filtering
    (inputs : List (StatusCheckCreate × Nat)) (hN : inputs.length ≤ 1000) :
    (∀ coll : List StatusCheck, (get_status_checks coll).length ≤ 1000) ∧
    inputs.length ≤
      (get_status_checks (run_status_creates 0 inputs [])).length ∧
    (∀ coll : List StatusCheck, coll.length ≤ 1000 →
      get_status_checks coll = coll) := by
  refine ⟨?_, ?_, ?_⟩
  · intro coll
    simp [get_status_checks]
  · have hlen := run_status_creates_length inputs 0 []
    simp only [List.length_nil, Nat.zero_add] at hlen
    simp only [get_status_checks, List.length_take, hlen]
    omega
  · intro coll hc
    exact List.take_of_length_le hc

/-- Witness for C9 after two concrete creations. -/
theorem get_status_checks_cap_and_no_filtering_witness :
    (get_status_checks (run_status_creates 0 twoCreates [])).length ≤ 1000 ∧
    twoCreates.length ≤
      (get_status_checks (run_status_creates 0 twoCreates [])).length ∧
    get_status_checks (run_status_creates 0 twoCreates []) =
      run_status_creates 0 twoCreates [] :=
  ⟨(get_status_checks_cap_and_no_filtering twoCreates (by decide)).1 _,
   (get_status_checks_cap_and_no_filtering twoCreates (by decide)).2.1,
   (get_status_checks_cap_and_no_filtering twoCreates (by decide)).2.2 _
     (by decide)⟩

/-- Claim C10: every 200 chat response carries a non-empty recommendation
list — exactly 3 items when the outbound status was non-success and
exactly 4 items on every success-status path. -/
theorem chat_ok_recommendation_counts (env : Env) (cd : ChatMessage)
    (r : ChatResponse) (hr : (chat_with_ai env cd).1 = HandlerResult.ok r) :
    r.recommendations ≠ [] ∧
    (env.hfResponse.status_code ≠ 200 → r.recommendations.length = 3) ∧
    (env.hfResponse.status_code = 200 → r.recommendations.length = 4) := by
  obtain ⟨-, -, -, -, hcr, -⟩ := chat_ok_characterization env cd r hr
  rw [computeResponse] at hcr
  by_cases hs : env.hfResponse.status_code = 200
  · simp only [hs, ne_eq, not_true_eq_false, if_false] at hcr
    rcases hex : extract_generated_text cd.user_info.name
        env.hfResponse.body with e | t <;> rw [hex] at hcr
    · simp [Except.map] at hcr
    · simp only [Except.map, Except.ok.injEq, Prod.mk.injEq] at hcr
      obtain ⟨-, h2⟩ := hcr
      refine ⟨?_, fun hns => absurd hs hns, fun _ => ?_⟩
      · rw [← h2]; simp [successRecommendations]
      · rw [← h2]; rfl
  · simp only [hs, ne_eq, not_false_eq_true, if_true, Except.ok.injEq,
      Prod.mk.injEq] at hcr
    obtain ⟨-, h2⟩ := hcr
    refine ⟨?_, fun _ => ?_, fun h200 => absurd h200 hs⟩
    · rw [← h2]; simp [fallbackRecommendations]
    · rw [← h2]; rfl

/-- Witness for C10 at a concrete successful run. -/
theorem chat_ok_recommendation_counts_witness :
    ({ response := "Generated advice.",
       recommendations := successRecommendations } :
        ChatResponse).recommendations ≠ [] ∧
    (envBase.hfResponse.status_code ≠ 200 →
      ({ response := "Generated advice.",
         recommendations := successRecommendations } :
          ChatResponse).recommendations.length = 3) ∧
    (envBase.hfResponse.status_code = 200 →
      ({ response := "Generated advice.",
         recommendations := successRecommendations } :
          ChatResponse).recommendations.length = 4) :=
  chat_ok_recommendation_counts envBase cd0
    { response := "Generated advice.",
      recommendations := successRecommendations } rfl

end Server
